import Mathlib

/-!
Verification of the HarborGuard scan-job lifecycle and progress-delivery
subsystem against its specification.

The definitions below are a shallow embedding of:
* `src/providers/ScanningProvider.tsx` — the job-state reducer
  (`scanningReducer`), the completion-monitor effect, and the `SSEManager`
  connection state machine (the file contains both documents);
* `src/app/api/scheduled-scans/[id]/execute/route.ts` — the batch trigger
  (`POST`) and the background batch loop (`startScanExecution`).

Timestamps (ISO strings / `Date.now()` in the source) are modelled as `Int`
milliseconds since the epoch; `new Date(s).getTime()` is the identity under
this encoding.  JavaScript `Map` objects keyed by request id are modelled as
association lists with unique keys (`mapGet` / `mapSet` / `mapErase` mirror
`Map.get` / `Map.set` / `Map.delete`).
-/

namespace HarborGuard

/-! ### String-keyed maps (JavaScript `Map` semantics) -/

/-- Models `Map.get k`: find the (unique) binding for `k`. -/
def mapGet {β : Type} : List (String × β) → String → Option β
  | [], _ => none
  | p :: rest, k => if p.1 = k then some p.2 else mapGet rest k

/-- Models `Map.set k v`: replace the binding for `k` in place, or append it. -/
def mapSet {β : Type} : List (String × β) → String → β → List (String × β)
  | [], k, v => [(k, v)]
  | p :: rest, k, v => if p.1 = k then (k, v) :: rest else p :: mapSet rest k v

/-- Models `Map.delete k`. -/
def mapErase {β : Type} : List (String × β) → String → List (String × β)
  | [], _ => []
  | p :: rest, k => if p.1 = k then rest else p :: mapErase rest k

/-! ### Job State Store — `ScanJob`, `scanningReducer`
    (src/providers/ScanningProvider.tsx, lines 8–139) -/

/-- Job status union from `ScanJob.status`. -/
inductive JobStatus
  | RUNNING
  | SUCCESS
  | FAILED
  | CANCELLED
  | QUEUED
  deriving DecidableEq, Repr

/-- The `ScanJob` interface (ScanningProvider.tsx lines 8–21). -/
structure ScanJob where
  requestId : String
  scanId : String
  imageId : String
  imageName : Option String
  status : JobStatus
  progress : Int
  step : Option String
  error : Option String
  startTime : Int
  lastUpdate : Int
  queuePosition : Option Int
  estimatedWaitTime : Option Int
  deriving DecidableEq, Repr

/-- The `ScanProgressEvent` message: the fields of the push-channel `progress` message
consumed by the reducer (`requestId`, `scanId`, `status`, `progress`,
`step?`, `error?`, `timestamp`). -/
structure ScanProgressEvent where
  requestId : String
  scanId : String
  status : JobStatus
  progress : Int
  step : Option String
  error : Option String
  timestamp : Int
  deriving DecidableEq, Repr

/-- Payload of `ADD_SCAN_JOB`: `Omit<ScanJob, 'startTime' | 'lastUpdate'>`. -/
structure AddJobPayload where
  requestId : String
  scanId : String
  imageId : String
  imageName : Option String
  status : JobStatus
  progress : Int
  step : Option String
  error : Option String
  queuePosition : Option Int
  estimatedWaitTime : Option Int
  deriving DecidableEq, Repr

/-- The `ScanningState` record (ScanningProvider.tsx lines 23–28). -/
structure ScanningState where
  jobs : List (String × ScanJob)
  queuedScans : List ScanJob
  lastFetchTime : Int
  isPolling : Bool
  deriving DecidableEq, Repr

/-- The `ScanningAction` union (ScanningProvider.tsx lines 30–38). -/
inductive ScanningAction
  | UPDATE_SCAN_PROGRESS (payload : ScanProgressEvent)
  | ADD_SCAN_JOB (payload : AddJobPayload)
  | REMOVE_SCAN_JOB (payload : String)
  | SET_JOBS (payload : List ScanJob)
  | SET_QUEUED_SCANS (payload : List ScanJob)
  | CLEAR_COMPLETED_JOBS
  | AUTO_CLEANUP
  | SET_POLLING (payload : Bool)

/-- The retention test of the `AUTO_CLEANUP` branch (lines 109–128): running
jobs are always kept, successful jobs while `currentTime - jobTime < 5000`,
failed/cancelled jobs while `currentTime - jobTime < 30000`; every other
status falls through every branch and is dropped. -/
def keepOnCleanup (now : Int) (job : ScanJob) : Bool :=
  if job.status = JobStatus.RUNNING then true
  else if job.status = JobStatus.SUCCESS then decide (now - job.lastUpdate < 5000)
  else if job.status = JobStatus.FAILED ∨ job.status = JobStatus.CANCELLED then
    decide (now - job.lastUpdate < 30000)
  else false

/-- The reducer `scanningReducer` (ScanningProvider.tsx lines 40–139).  `now` stands for
`Date.now()` / `new Date().toISOString()` at dispatch time. -/
def scanningReducer (now : Int) (state : ScanningState) (action : ScanningAction) :
    ScanningState :=
  match action with
  | .UPDATE_SCAN_PROGRESS event =>
    let existingJob := mapGet state.jobs event.requestId
    let updatedJob : ScanJob :=
      { requestId := event.requestId
        scanId := event.scanId
        imageId := ((existingJob.map ScanJob.imageId).getD "")
        imageName := existingJob.bind ScanJob.imageName
        status := event.status
        progress := event.progress
        step := event.step
        error := event.error
        startTime := ((existingJob.map ScanJob.startTime).getD event.timestamp)
        lastUpdate := event.timestamp
        queuePosition := none
        estimatedWaitTime := none }
    { state with jobs := mapSet state.jobs event.requestId updatedJob }
  | .ADD_SCAN_JOB payload =>
    let newJob : ScanJob :=
      { requestId := payload.requestId
        scanId := payload.scanId
        imageId := payload.imageId
        imageName := payload.imageName
        status := payload.status
        progress := payload.progress
        step := payload.step
        error := payload.error
        startTime := now
        lastUpdate := now
        queuePosition := payload.queuePosition
        estimatedWaitTime := payload.estimatedWaitTime }
    { state with jobs := mapSet state.jobs newJob.requestId newJob }
  | .REMOVE_SCAN_JOB requestId =>
    { state with jobs := mapErase state.jobs requestId }
  | .SET_JOBS payload =>
    { state with
        jobs := payload.foldl (fun m job => mapSet m job.requestId job) []
        lastFetchTime := now }
  | .SET_QUEUED_SCANS payload =>
    { state with queuedScans := payload }
  | .CLEAR_COMPLETED_JOBS =>
    { state with jobs := state.jobs.filter fun p => p.2.status = JobStatus.RUNNING }
  | .AUTO_CLEANUP =>
    { state with jobs := state.jobs.filter fun p => keepOnCleanup now p.2 }
  | .SET_POLLING payload =>
    { state with isPolling := payload }

/-! ### Completion monitor
    (ScanningProvider.tsx lines 203–229, the effect over `state.jobs`) -/

/-- Observable actions taken by the completion-monitor effect for one job. -/
inductive MonitorAction
  | invokeOnScanComplete (job : ScanJob)
  | scheduleDisconnect (requestId : String) (delayMs : Nat)
  | disconnectNow (requestId : String)
  deriving DecidableEq, Repr

/-- Effect body for one entry of `currentJobs` (lines 209–225): if the job is
now `SUCCESS` and a previous snapshot entry exists with a different status,
invoke the registered completion callback (when one is registered) and
schedule a disconnect of the job's channel via `setTimeout(..., 2000)`; else
if the job is now `FAILED`/`CANCELLED` and the previous status was `RUNNING`,
disconnect immediately. -/
def completionActionsFor (callbackRegistered : Bool) (previousJob : Option ScanJob)
    (job : ScanJob) : List MonitorAction :=
  match previousJob with
  | none => []
  | some prev =>
    if job.status = JobStatus.SUCCESS ∧ prev.status ≠ JobStatus.SUCCESS then
      (if callbackRegistered then [MonitorAction.invokeOnScanComplete job] else [])
        ++ [MonitorAction.scheduleDisconnect job.requestId 2000]
    else if (job.status = JobStatus.FAILED ∨ job.status = JobStatus.CANCELLED)
        ∧ prev.status = JobStatus.RUNNING then
      [MonitorAction.disconnectNow job.requestId]
    else []

/-- Recognizer for the completion-callback invocation. -/
def isInvoke : MonitorAction → Bool
  | MonitorAction.invokeOnScanComplete _ => true
  | _ => false

/-! ### Connection Manager — `SSEManager`
    (the sse-manager document inside src/providers/ScanningProvider.tsx) -/

/-- The `ConnectionStatus` union. -/
inductive ConnectionStatus
  | connecting
  | connected
  | disconnected
  | error
  | reconnecting
  deriving DecidableEq, Repr

/-- Models `Required<SSEConnectionOptions>`. -/
structure SSEOptions where
  maxRetries : Nat
  retryInterval : Nat
  heartbeatTimeout : Nat
  deriving DecidableEq, Repr

/-- The manager's built-in defaults. -/
def defaultOptions : SSEOptions :=
  { maxRetries := 3, retryInterval := 1000, heartbeatTimeout := 30000 }

/-- A `ManagedConnection` record.  `hasEventSource` models `eventSource !== null`;
`heartbeatArmed` models a live `heartbeatTimer`; `reconnectDelay = some d`
models a pending `reconnectTimer` armed with delay `d` milliseconds. -/
structure ManagedConnection where
  requestId : String
  hasEventSource : Bool
  status : ConnectionStatus
  retryCount : Nat
  heartbeatArmed : Bool
  reconnectDelay : Option Nat
  lastActivity : Int
  deriving DecidableEq, Repr

/-- Models `establishConnection`: creates the `EventSource` and marks the connection
`connecting` (heartbeat is armed only by `onopen`, which never fires on the
all-failures paths considered here). -/
def establishConnection (c : ManagedConnection) : ManagedConnection :=
  { c with hasEventSource := true, status := ConnectionStatus.connecting }

/-- Models `handleConnectionError`: close the source, clear both timers, then either
schedule a reconnect (`retryCount < maxRetries`: increment `retryCount`, set
`reconnecting`, arm the reconnect timer with
`min(retryInterval * 2 ^ (retryCount - 1), 30000)` computed after the
increment) or enter the terminal `error` status with no timer armed. -/
def handleConnectionError (opts : SSEOptions) (c0 : ManagedConnection) :
    ManagedConnection :=
  let c := { c0 with hasEventSource := false, heartbeatArmed := false,
                     reconnectDelay := none }
  if c.retryCount < opts.maxRetries then
    { c with retryCount := c.retryCount + 1
             status := ConnectionStatus.reconnecting
             reconnectDelay := some (min (opts.retryInterval * 2 ^ c.retryCount) 30000) }
  else
    { c with status := ConnectionStatus.error }

/-- The connection record as `connect` creates it, before `establishConnection`
runs (status `connecting`, `retryCount` 0, `lastActivity = Date.now()`). -/
def freshConnection (requestId : String) (now : Int) : ManagedConnection :=
  { requestId := requestId
    hasEventSource := false
    status := ConnectionStatus.connecting
    retryCount := 0
    heartbeatArmed := false
    reconnectDelay := none
    lastActivity := now }

/-- One failed open: the pending reconnect timer (if any) fires and is
consumed, `establishConnection` runs, the transport errors, and
`handleConnectionError` processes the failure. -/
def failedOpen (opts : SSEOptions) (c : ManagedConnection) : ManagedConnection :=
  handleConnectionError opts (establishConnection { c with reconnectDelay := none })

/-- State of a connection after `n` consecutive transport failures with no
successful open, starting from the record `connect` installs. -/
def afterFailures (opts : SSEOptions) : Nat → ManagedConnection → ManagedConnection
  | 0, c => c
  | Nat.succ n, c => failedOpen opts (afterFailures opts n c)

/-- Result of one `connect(requestId)` call: the boolean return value, the
connection table afterwards, and how many transport opens were performed. -/
structure ConnectResult where
  returned : Bool
  connections : List (String × ManagedConnection)
  transportOpens : Nat
  deriving DecidableEq, Repr

/-- Models `SSEManager.connect` (sse-manager lines 464–487): return `true` at once
when the id is already `connected`; otherwise install a fresh record and run
`establishConnection` (one transport open), returning `true`. -/
def connectSSE (now : Int) (conns : List (String × ManagedConnection))
    (requestId : String) : ConnectResult :=
  match mapGet conns requestId with
  | some existing =>
    if existing.status = ConnectionStatus.connected then
      { returned := true, connections := conns, transportOpens := 0 }
    else
      { returned := true
        connections := mapSet conns requestId (establishConnection (freshConnection requestId now))
        transportOpens := 1 }
  | none =>
    { returned := true
      connections := mapSet conns requestId (establishConnection (freshConnection requestId now))
      transportOpens := 1 }

/-! ### Batch Execution Pipeline
    (src/app/api/scheduled-scans/[id]/execute/route.ts) -/

/-- The `ScheduledScanHistory.status` values written by the route. -/
inductive BatchStatus
  | PENDING
  | RUNNING
  | COMPLETED
  | PARTIAL
  | FAILED
  deriving DecidableEq, Repr

/-- The fields of the `scheduledScanHistory` record the route reads/writes. -/
structure HistoryRecord where
  status : BatchStatus
  scannedImages : Nat
  failedImages : Nat
  errorMessage : Option String
  completedAt : Option Int
  totalImages : Nat
  deriving DecidableEq, Repr

/-- The record as created by `POST` (status `PENDING`, counters zero). -/
def initialHistory (total : Nat) : HistoryRecord :=
  { status := BatchStatus.PENDING
    scannedImages := 0
    failedImages := 0
    errorMessage := none
    completedAt := none
    totalImages := total }

/-- Where, if anywhere, the `try` block of one loop iteration throws.  The
`await`ed statements in source order are: `prisma.scan.create`,
`prisma.scheduledScanResult.create`, `prisma.scheduledScanResult.update`,
then — after `scannedCount++` — the per-batch progress
`prisma.scheduledScanHistory.update`. -/
inductive TryOutcome
  | ok
  | throwAtScanCreate
  | throwAtResultCreate
  | throwAtResultUpdate
  | throwAtProgressUpdate
  deriving DecidableEq, Repr

/-- Environment for one loop iteration: where the `try` block throws (if
anywhere), and whether the `catch` block's own
`prisma.scheduledScanHistory.update` throws (which rejects the whole
background task). -/
structure TargetEnv where
  tryOutcome : TryOutcome
  catchUpdateThrows : Bool
  deriving DecidableEq, Repr

/-- Local loop state: the `scannedCount` / `failedCount` variables plus the
persisted history record. -/
structure ExecState where
  scanned : Nat
  failed : Nat
  history : HistoryRecord
  deriving DecidableEq, Repr

/-- One iteration of the `for (const image of images)` loop (route lines
151–218).  On `ok`, `scannedCount++` then the progress update persists both
counters.  On a throw before the increment, the `catch` runs: `failedCount++`
and the history's `failedImages` is persisted.  On a throw at the progress
update, `scannedCount` was already incremented, and the `catch` additionally
increments `failedCount`.  If the `catch`'s update itself throws, the
exception propagates out of the loop. -/
def runTarget (st : ExecState) (env : TargetEnv) : Except (String × ExecState) ExecState :=
  match env.tryOutcome, env.catchUpdateThrows with
  | TryOutcome.ok, _ =>
    Except.ok { st with
      scanned := st.scanned + 1
      history := { st.history with
        scannedImages := st.scanned + 1
        failedImages := st.failed } }
  | TryOutcome.throwAtProgressUpdate, true =>
    Except.error ("scheduledScanHistory update threw in catch",
      { st with scanned := st.scanned + 1, failed := st.failed + 1 })
  | TryOutcome.throwAtProgressUpdate, false =>
    Except.ok { st with
      scanned := st.scanned + 1
      failed := st.failed + 1
      history := { st.history with failedImages := st.failed + 1 } }
  | _, true =>
    Except.error ("scheduledScanHistory update threw in catch",
      { st with failed := st.failed + 1 })
  | _, false =>
    Except.ok { st with
      failed := st.failed + 1
      history := { st.history with failedImages := st.failed + 1 } }

/-- The whole target loop; `some msg` in the second component means the
background task's promise rejected with that message. -/
def runTargets : ExecState → List TargetEnv → ExecState × Option String
  | st, [] => (st, none)
  | st, env :: rest =>
    match runTarget st env with
    | Except.ok st1 => runTargets st1 rest
    | Except.error (msg, st1) => (st1, some msg)

/-- The terminal-status expression of the final history update (route lines
224–225): `failedCount === images.length ? FAILED : failedCount > 0 ?
PARTIAL : COMPLETED`. -/
def computeFinalStatus (failedCount : Nat) (totalImages : Nat) : BatchStatus :=
  if failedCount = totalImages then BatchStatus.FAILED
  else if failedCount > 0 then BatchStatus.PARTIAL
  else BatchStatus.COMPLETED

/-- Environment for one whole background run: whether the initial
status-`RUNNING` update throws, the per-target environments, and whether the
final completion update throws. -/
structure BatchEnv where
  initialUpdateThrows : Bool
  targets : List TargetEnv
  finalUpdateThrows : Bool
  deriving DecidableEq, Repr

/-- Loop state at entry: counters zero, history persisted as `RUNNING`. -/
def initExecState (hist : HistoryRecord) : ExecState :=
  { scanned := 0, failed := 0, history := { hist with status := BatchStatus.RUNNING } }

/-- Models `startScanExecution` (route lines 140–231): set the history to `RUNNING`,
run the target loop, then persist the final status (the pure function of the
final counters), the completion timestamp and the final counters.  The second
component carries the message of a rejected promise, if any. -/
def startScanExecution (now : Int) (hist : HistoryRecord) (env : BatchEnv) :
    HistoryRecord × Option String :=
  if env.initialUpdateThrows then
    (hist, some "status RUNNING update threw")
  else
    match runTargets (initExecState hist) env.targets with
    | (st, some msg) => (st.history, some msg)
    | (st, none) =>
      if env.finalUpdateThrows then
        (st.history, some "final completion update threw")
      else
        ({ st.history with
            status := computeFinalStatus st.failed env.targets.length
            completedAt := some now
            scannedImages := st.scanned
            failedImages := st.failed }, none)

/-- The rejection handler attached by `POST` (route lines 102–113): force the
history to `FAILED` with the captured message and a completion timestamp. -/
def onExecutionError (now : Int) (hist : HistoryRecord) (msg : String) : HistoryRecord :=
  { hist with
      status := BatchStatus.FAILED
      errorMessage := some msg
      completedAt := some now }

/-- The background task as `POST` wires it: `startScanExecution(...).catch(...)`.
The possible failure of the recovery update itself (swallowed by
`.catch(console.error)`) is not modelled: the `Persistence` collaborator is
assumed to accept the recovery write. -/
def runBatch (now : Int) (hist : HistoryRecord) (env : BatchEnv) : HistoryRecord :=
  match startScanExecution now hist env with
  | (h, none) => h
  | (h, some msg) => onExecutionError now h msg

/-- True when the iteration increments `scannedCount` (the `try` reached the
line after `scannedCount++`). -/
def incrementsScanned (env : TargetEnv) : Bool :=
  match env.tryOutcome with
  | TryOutcome.ok => true
  | TryOutcome.throwAtProgressUpdate => true
  | _ => false

/-- True when the iteration increments `failedCount` (the `try` threw). -/
def incrementsFailed (env : TargetEnv) : Bool :=
  match env.tryOutcome with
  | TryOutcome.ok => false
  | _ => true

/-! ### Batch trigger — `POST` (route lines 5–138) -/

/-- The `imageSelectionMode` values handled by the switch. -/
inductive SelectionMode
  | SPECIFIC
  | PATTERN
  | ALL
  | REPOSITORY
  deriving DecidableEq, Repr

/-- The image fields the route selects. -/
structure ImageRec where
  id : String
  name : String
  tag : String
  registry : Option String
  deriving DecidableEq, Repr

/-- The scheduled-scan record fields the trigger reads. -/
structure ScheduledScan where
  enabled : Bool
  imageSelectionMode : SelectionMode
  selectedImages : List ImageRec
  imagePattern : Option String
  deriving DecidableEq, Repr

/-- The `imagesToScan` computation of the switch (route lines 37–78), for the
implemented modes.  `regexTest pat s` abstracts `new RegExp(pat).test(s)`;
the candidate identity is `name:tag` as in the source.  With `PATTERN` and a
null pattern the list stays empty, as in the source. -/
def resolveImages (regexTest : String → String → Bool) (scan : ScheduledScan)
    (allImages : List ImageRec) : List ImageRec :=
  match scan.imageSelectionMode with
  | SelectionMode.SPECIFIC => scan.selectedImages
  | SelectionMode.PATTERN =>
    match scan.imagePattern with
    | some pat => allImages.filter fun img => regexTest pat (img.name ++ ":" ++ img.tag)
    | none => []
  | SelectionMode.ALL => allImages
  | SelectionMode.REPOSITORY => []

/-- The HTTP response of the trigger call. -/
structure TriggerResponse where
  httpStatus : Nat
  errorBody : Option String
  startedTotal : Option Nat
  deriving DecidableEq, Repr

/-- Models `POST` (route lines 5–138): 404 for a missing scan, 400 for a disabled
scan, 501 for `REPOSITORY` mode, 400 for an empty resolved target set; only
otherwise is a history record created (status `PENDING`) and 202 returned.
The second component is the persisted batch record, `none` when nothing was
persisted. -/
def executePost (regexTest : String → String → Bool) (scan : Option ScheduledScan)
    (allImages : List ImageRec) : TriggerResponse × Option HistoryRecord :=
  match scan with
  | none =>
    ({ httpStatus := 404, errorBody := some "Scheduled scan not found",
       startedTotal := none }, none)
  | some s =>
    if s.enabled = false then
      ({ httpStatus := 400, errorBody := some "Scheduled scan is disabled",
         startedTotal := none }, none)
    else if s.imageSelectionMode = SelectionMode.REPOSITORY then
      ({ httpStatus := 501,
         errorBody := some "Repository-based selection not yet implemented",
         startedTotal := none }, none)
    else
      let imagesToScan := resolveImages regexTest s allImages
      if imagesToScan.length = 0 then
        ({ httpStatus := 400, errorBody := some "No images found to scan",
           startedTotal := none }, none)
      else
        ({ httpStatus := 202, errorBody := none,
           startedTotal := some imagesToScan.length },
         some (initialHistory imagesToScan.length))

/-! ### Concrete instances used by counterexamples and witnesses -/

/-- Stored job for the C1 counterexample: `RUNNING` at progress 50, last
updated at time 2000. -/
def c1Job : ScanJob :=
  { requestId := "r1", scanId := "s1", imageId := "i1", imageName := some "img",
    status := JobStatus.RUNNING, progress := 50, step := none, error := none,
    startTime := 0, lastUpdate := 2000, queuePosition := none,
    estimatedWaitTime := none }

/-- Job-store state holding `c1Job`. -/
def c1State : ScanningState :=
  { jobs := [("r1", c1Job)], queuedScans := [], lastFetchTime := 0,
    isPolling := false }

/-- A stale event: timestamp 1000, earlier than the job's `lastUpdate` 2000,
carrying status `QUEUED` and progress 10. -/
def c1Event : ScanProgressEvent :=
  { requestId := "r1", scanId := "s1", status := JobStatus.QUEUED, progress := 10,
    step := none, error := none, timestamp := 1000 }

/-- A `FAILED` job last updated at time 0, for the C5 witness. -/
def c5Job : ScanJob :=
  { requestId := "f1", scanId := "s5", imageId := "i5", imageName := none,
    status := JobStatus.FAILED, progress := 100, step := none,
    error := some "scan failed", startTime := 0, lastUpdate := 0,
    queuePosition := none, estimatedWaitTime := none }

/-- Job-store state holding `c5Job`. -/
def c5State : ScanningState :=
  { jobs := [("f1", c5Job)], queuedScans := [], lastFetchTime := 0,
    isPolling := false }

/-- A `QUEUED` job last updated at time 999999 (arbitrarily recent), for the
C10 witness. -/
def c10Job : ScanJob :=
  { requestId := "q1", scanId := "s10", imageId := "i10", imageName := none,
    status := JobStatus.QUEUED, progress := 0, step := none, error := none,
    startTime := 999999, lastUpdate := 999999, queuePosition := some 1,
    estimatedWaitTime := some 30 }

/-- Job-store state holding `c10Job`. -/
def c10State : ScanningState :=
  { jobs := [("q1", c10Job)], queuedScans := [], lastFetchTime := 0,
    isPolling := false }

/-- A connection table with one connected channel, for the C9 witness. -/
def c9Conns : List (String × ManagedConnection) :=
  [("j9", { requestId := "j9", hasEventSource := true,
            status := ConnectionStatus.connected, retryCount := 0,
            heartbeatArmed := true, reconnectDelay := none, lastActivity := 5 })]

/-- Previous snapshot of a job still `RUNNING`, for the C8 witness. -/
def c8Prev : ScanJob :=
  { requestId := "j8", scanId := "s8", imageId := "i8", imageName := none,
    status := JobStatus.RUNNING, progress := 90, step := none, error := none,
    startTime := 0, lastUpdate := 100, queuePosition := none,
    estimatedWaitTime := none }

/-- The same job transitioned into `SUCCESS`, for the C8 witness. -/
def c8Success : ScanJob :=
  { c8Prev with status := JobStatus.SUCCESS, progress := 100, lastUpdate := 200 }

/-- The same job transitioned into `FAILED`, for the C8 witness. -/
def c8Failed : ScanJob :=
  { c8Prev with
    status := JobStatus.FAILED
    error := some "scan failed"
    lastUpdate := 200 }

/-- The persisted history record after a background run whose initial and
final updates persist, over targets `envs`. -/
def finalHistory (now : Int) (envs : List TargetEnv) : HistoryRecord :=
  (startScanExecution now (initialHistory envs.length)
    { initialUpdateThrows := false, targets := envs, finalUpdateThrows := false }).1

/-- Target environments for the C2 witness: five targets, three succeed and
two fail (at the scan-create statement). -/
def c2Envs : List TargetEnv :=
  [⟨TryOutcome.ok, false⟩, ⟨TryOutcome.ok, false⟩, ⟨TryOutcome.ok, false⟩,
   ⟨TryOutcome.throwAtScanCreate, false⟩, ⟨TryOutcome.throwAtScanCreate, false⟩]

/-- A target whose `try` throws at the per-batch progress persist, after
`scannedCount++` already ran. -/
def c3Env : TargetEnv := ⟨TryOutcome.throwAtProgressUpdate, false⟩

/-- Targets for the C3 witness: one success, one failure before the success
increment. -/
def c3WitnessEnvs : List TargetEnv :=
  [⟨TryOutcome.ok, false⟩, ⟨TryOutcome.throwAtScanCreate, false⟩]

/-- A matcher that matches nothing, abstracting a regex with zero matches. -/
def noMatch : String → String → Bool := fun _ _ => false

/-- A disabled scheduled scan. -/
def c6Disabled : ScheduledScan :=
  { enabled := false, imageSelectionMode := SelectionMode.ALL,
    selectedImages := [], imagePattern := none }

/-- An enabled scheduled scan in the unimplemented `REPOSITORY` mode. -/
def c6Repo : ScheduledScan :=
  { enabled := true, imageSelectionMode := SelectionMode.REPOSITORY,
    selectedImages := [], imagePattern := none }

/-- An enabled `PATTERN`-mode scheduled scan whose pattern matches nothing. -/
def c6Pat : ScheduledScan :=
  { enabled := true, imageSelectionMode := SelectionMode.PATTERN,
    selectedImages := [], imagePattern := some "nginx" }

/-- The image inventory for the C6 witness. -/
def c6Images : List ImageRec :=
  [{ id := "1", name := "redis", tag := "7", registry := none }]

/-- A batch run whose initial status-`RUNNING` update throws. -/
def c7Env : BatchEnv :=
  { initialUpdateThrows := true, targets := [], finalUpdateThrows := false }

/-- Targets for the C7 witness: the first fails, the second still runs. -/
def c7Envs : List TargetEnv :=
  [⟨TryOutcome.throwAtResultCreate, false⟩, ⟨TryOutcome.ok, false⟩]

/-- Loop state for the C7 witness. -/
def c7St : ExecState := initExecState (initialHistory 2)

/-! ### Map lemmas -/

theorem mapGet_mapSet_self {β : Type} (m : List (String × β)) (k : String) (v : β) :
    mapGet (mapSet m k v) k = some v := by
  induction m with
  | nil => simp [mapGet, mapSet]
  | cons p rest ih =>
    by_cases h : p.1 = k <;> simp [mapGet, mapSet, h, ih]

theorem mapGet_eq_none_of_keys {β : Type} (m : List (String × β)) (k : String)
    (h : ∀ p ∈ m, p.1 ≠ k) : mapGet m k = none := by
  induction m with
  | nil => rfl
  | cons p rest ih =>
    have hp : p.1 ≠ k := h p (List.mem_cons_self p rest)
    simp only [mapGet, hp, if_false]
    exact ih fun q hq => h q (List.mem_cons_of_mem p hq)

theorem mapGet_filter_eq_none {β : Type} (f : String × β → Bool)
    (m : List (String × β)) (k : String) (h : ∀ p ∈ m, p.1 ≠ k) :
    mapGet (m.filter f) k = none := by
  refine mapGet_eq_none_of_keys _ _ ?_
  intro p hp
  exact h p (List.mem_of_mem_filter hp)

/-- On a map with unique keys, filtering on the value commutes with lookup. -/
theorem mapGet_filter {β : Type} (f : β → Bool) (m : List (String × β))
    (k : String) (v : β) (hkeys : (m.map Prod.fst).Nodup) :
    mapGet (m.filter fun p => f p.2) k = some v ↔ mapGet m k = some v ∧ f v = true := by
  induction m with
  | nil => simp [mapGet]
  | cons p rest ih =>
    obtain ⟨k1, v1⟩ := p
    simp only [List.map_cons, List.nodup_cons] at hkeys
    obtain ⟨hnotin, hnodup⟩ := hkeys
    by_cases hk : k1 = k
    · subst hk
      by_cases hf : f v1
      · simp only [List.filter_cons, hf, if_true, mapGet, if_pos rfl,
          Option.some.injEq]
        constructor
        · rintro rfl; exact ⟨rfl, hf⟩
        · rintro ⟨rfl, _⟩; rfl
      · simp only [List.filter_cons, hf, Bool.false_eq_true, if_false, mapGet, if_pos rfl]
        have hnone : mapGet (rest.filter fun p => f p.2) k1 = none := by
          refine mapGet_filter_eq_none _ _ _ ?_
          intro q hq hq1
          exact hnotin (hq1 ▸ List.mem_map_of_mem Prod.fst hq)
        rw [hnone]
        constructor
        · intro h; exact absurd h (by simp)
        · rintro ⟨hv, hfv⟩
          injection hv with hv
          subst hv
          exact absurd hfv (by simp [hf])
    · simp only [List.filter_cons]
      by_cases hf : f v1
      · simp only [hf, if_true, mapGet, hk, if_false]
        exact ih hnodup
      · simp only [hf, Bool.false_eq_true, if_false, mapGet, hk]
        exact ih hnodup

/-- The `AUTO_CLEANUP` retention test, characterized per status. -/
theorem keepOnCleanup_iff (now : Int) (job : ScanJob) :
    keepOnCleanup now job = true ↔
      (job.status = JobStatus.RUNNING ∨
       (job.status = JobStatus.SUCCESS ∧ now - job.lastUpdate < 5000) ∨
       ((job.status = JobStatus.FAILED ∨ job.status = JobStatus.CANCELLED) ∧
         now - job.lastUpdate < 30000)) := by
  cases h : job.status <;> simp [keepOnCleanup, h]

/-! ### Claim C1 -/

/-- C1 (amended): the `UPDATE_SCAN_PROGRESS` branch of `scanningReducer`
contains no timestamp comparison — for every job-store state and every
`UPDATE_SCAN_PROGRESS` action, applying the reducer sets the stored job's
displayed status and progress to the event's values and `lastUpdate` to the
event's timestamp unconditionally, even when the event timestamp is earlier
than the stored job's current `lastUpdate`. -/
theorem c1_update_overwrites_unconditionally (now : Int) (st : ScanningState)
    (ev : ScanProgressEvent) :
    (mapGet (scanningReducer now st (ScanningAction.UPDATE_SCAN_PROGRESS ev)).jobs
        ev.requestId).map ScanJob.status = some ev.status ∧
    (mapGet (scanningReducer now st (ScanningAction.UPDATE_SCAN_PROGRESS ev)).jobs
        ev.requestId).map ScanJob.progress = some ev.progress ∧
    (mapGet (scanningReducer now st (ScanningAction.UPDATE_SCAN_PROGRESS ev)).jobs
        ev.requestId).map ScanJob.lastUpdate = some ev.timestamp := by
  simp [scanningReducer, mapGet_mapSet_self]

/-- C1 counterexample: applying `UPDATE_SCAN_PROGRESS` with an event whose
timestamp (1000) is earlier than the stored job's `lastUpdate` (2000) changes
the displayed status from `RUNNING` to `QUEUED` and the progress from 50 to
10 — the claimed staleness guard does not exist. -/
theorem c1_counterexample :
    c1Event.timestamp < c1Job.lastUpdate ∧
    mapGet c1State.jobs "r1" = some c1Job ∧
    c1Job.status = JobStatus.RUNNING ∧
    c1Job.progress = 50 ∧
    (mapGet (scanningReducer 2500 c1State
        (ScanningAction.UPDATE_SCAN_PROGRESS c1Event)).jobs "r1").map ScanJob.status
      = some JobStatus.QUEUED ∧
    (mapGet (scanningReducer 2500 c1State
        (ScanningAction.UPDATE_SCAN_PROGRESS c1Event)).jobs "r1").map ScanJob.progress
      = some (10 : Int) := by
  decide

/-! ### Claim C5 -/

/-- C5: applying `AUTO_CLEANUP` at time `now` keeps a stored job exactly when
it is `RUNNING` (regardless of age), or `SUCCESS` with `now - lastUpdate`
under 5000 ms, or `FAILED`/`CANCELLED` with `now - lastUpdate` under
30000 ms; a kept job is returned with every field unchanged.  In particular a
prune 31000 ms after a `FAILED` job's last update removes it. -/
theorem c5_prune_retention (now : Int) (st : ScanningState) (id : String)
    (job : ScanJob) (hkeys : (st.jobs.map Prod.fst).Nodup) :
    mapGet (scanningReducer now st ScanningAction.AUTO_CLEANUP).jobs id = some job ↔
      (mapGet st.jobs id = some job ∧
        (job.status = JobStatus.RUNNING ∨
         (job.status = JobStatus.SUCCESS ∧ now - job.lastUpdate < 5000) ∨
         ((job.status = JobStatus.FAILED ∨ job.status = JobStatus.CANCELLED) ∧
           now - job.lastUpdate < 30000))) := by
  have h := mapGet_filter (fun j => keepOnCleanup now j) st.jobs id job hkeys
  simp only [scanningReducer]
  rw [h, keepOnCleanup_iff]

/-- C5 witness: the retention characterization instantiated 31000 ms after a
`FAILED` job's last update. -/
theorem c5_prune_retention_witness :
    (c5State.jobs.map Prod.fst).Nodup ∧
    (mapGet (scanningReducer 31000 c5State ScanningAction.AUTO_CLEANUP).jobs "f1"
        = some c5Job ↔
      (mapGet c5State.jobs "f1" = some c5Job ∧
        (c5Job.status = JobStatus.RUNNING ∨
         (c5Job.status = JobStatus.SUCCESS ∧ (31000 : Int) - c5Job.lastUpdate < 5000) ∨
         ((c5Job.status = JobStatus.FAILED ∨ c5Job.status = JobStatus.CANCELLED) ∧
           (31000 : Int) - c5Job.lastUpdate < 30000)))) :=
  ⟨by decide, c5_prune_retention 31000 c5State "f1" c5Job (by decide)⟩

/-! ### Claim C10 -/

/-- C10: `AUTO_CLEANUP` removes every `QUEUED` job immediately — `QUEUED`
matches none of the retention branches, so only `RUNNING`, `SUCCESS`,
`FAILED` and `CANCELLED` jobs can survive a cleanup pass, regardless of how
recently the `QUEUED` job was updated. -/
theorem c10_queued_removed (now : Int) (st : ScanningState) (id : String)
    (job : ScanJob) (hkeys : (st.jobs.map Prod.fst).Nodup)
    (hget : mapGet st.jobs id = some job) (hq : job.status = JobStatus.QUEUED) :
    mapGet (scanningReducer now st ScanningAction.AUTO_CLEANUP).jobs id = none := by
  rcases hres : mapGet (scanningReducer now st ScanningAction.AUTO_CLEANUP).jobs id
    with _ | j2
  · rfl
  · exfalso
    simp only [scanningReducer] at hres
    obtain ⟨hget2, hkeep⟩ :=
      (mapGet_filter (fun j => keepOnCleanup now j) st.jobs id j2 hkeys).mp hres
    rw [hget] at hget2
    injection hget2 with hj
    subst hj
    simp [keepOnCleanup, hq] at hkeep

/-- C10 witness: a `QUEUED` job updated at the very moment of the cleanup is
removed anyway. -/
theorem c10_queued_removed_witness :
    (c10State.jobs.map Prod.fst).Nodup ∧
    mapGet c10State.jobs "q1" = some c10Job ∧
    c10Job.status = JobStatus.QUEUED ∧
    mapGet (scanningReducer 999999 c10State ScanningAction.AUTO_CLEANUP).jobs "q1"
      = none :=
  ⟨by decide, by decide, by decide,
    c10_queued_removed 999999 c10State "q1" c10Job (by decide) (by decide) (by decide)⟩

/-! ### Reconnection lemmas -/

/-- After `n` consecutive failed opens with `1 ≤ n ≤ maxRetries`, the
connection is `reconnecting` with `retryCount = n` and a reconnect timer
armed with `min(retryInterval * 2 ^ (n - 1), 30000)`. -/
theorem afterFailures_reconnecting (opts : SSEOptions) (id : String) (t : Int) :
    ∀ n, 1 ≤ n → n ≤ opts.maxRetries →
      afterFailures opts n (freshConnection id t)
        = { requestId := id
            hasEventSource := false
            status := ConnectionStatus.reconnecting
            retryCount := n
            heartbeatArmed := false
            reconnectDelay := some (min (opts.retryInterval * 2 ^ (n - 1)) 30000)
            lastActivity := t } := by
  intro n
  induction n with
  | zero => intro h; exact absurd h (by omega)
  | succ m ihm =>
    intro _ hle
    rcases Nat.eq_zero_or_pos m with h0 | hpos
    · subst h0
      have hlt : 0 < opts.maxRetries := hle
      simp [afterFailures, failedOpen, establishConnection, handleConnectionError,
        freshConnection, hlt]
    · have hm : m ≤ opts.maxRetries := le_trans (Nat.le_succ m) hle
      have hstep : afterFailures opts (m + 1) (freshConnection id t)
          = failedOpen opts (afterFailures opts m (freshConnection id t)) := rfl
      rw [hstep, ihm hpos hm]
      have hlt : m < opts.maxRetries := Nat.lt_of_succ_le hle
      simp [failedOpen, establishConnection, handleConnectionError, hlt,
        Nat.succ_sub_one]

/-- After `maxRetries + 1` consecutive failed opens, the connection is in the
terminal `error` status with no reconnect timer armed. -/
theorem afterFailures_error (opts : SSEOptions) (id : String) (t : Int) :
    (afterFailures opts (opts.maxRetries + 1) (freshConnection id t)).status
        = ConnectionStatus.error ∧
    (afterFailures opts (opts.maxRetries + 1) (freshConnection id t)).reconnectDelay
        = none := by
  rcases Nat.eq_zero_or_pos opts.maxRetries with h0 | hpos
  · have hstep : afterFailures opts (opts.maxRetries + 1) (freshConnection id t)
        = failedOpen opts (afterFailures opts opts.maxRetries (freshConnection id t)) := rfl
    rw [hstep, h0]
    simp [afterFailures, failedOpen, establishConnection, handleConnectionError,
      freshConnection, h0]
  · have hstep : afterFailures opts (opts.maxRetries + 1) (freshConnection id t)
        = failedOpen opts (afterFailures opts opts.maxRetries (freshConnection id t)) := rfl
    rw [hstep, afterFailures_reconnecting opts id t opts.maxRetries hpos le_rfl]
    simp [failedOpen, establishConnection, handleConnectionError]

/-! ### Claim C4 -/

/-- C4 (amended): starting from the record `connect` installs, each retry `k`
with `1 ≤ k ≤ maxRetries` is scheduled after the `k`-th consecutive transport
failure with delay `min(retryInterval * 2 ^ (k - 1), 30000)` and status
`reconnecting`; the terminal `error` status with no further automatic attempt
is reached only after `maxRetries + 1` consecutive transport failures (the
initial open plus all `maxRetries` scheduled retries failing), not after
`maxRetries` of them. -/
theorem c4_backoff_and_exhaustion (opts : SSEOptions) (id : String) (t : Int) :
    (∀ k, 1 ≤ k → k ≤ opts.maxRetries →
      (afterFailures opts k (freshConnection id t)).status
          = ConnectionStatus.reconnecting ∧
      (afterFailures opts k (freshConnection id t)).retryCount = k ∧
      (afterFailures opts k (freshConnection id t)).reconnectDelay
          = some (min (opts.retryInterval * 2 ^ (k - 1)) 30000)) ∧
    ((afterFailures opts (opts.maxRetries + 1) (freshConnection id t)).status
        = ConnectionStatus.error ∧
     (afterFailures opts (opts.maxRetries + 1) (freshConnection id t)).reconnectDelay
        = none) := by
  constructor
  · intro k hk1 hk2
    rw [afterFailures_reconnecting opts id t k hk1 hk2]
    exact ⟨rfl, rfl, rfl⟩
  · exact afterFailures_error opts id t

/-- C4 witness: with the default options (`maxRetries = 3`,
`retryInterval = 1000`), the second failure leaves the connection
`reconnecting` with retry 2 scheduled after 2000 ms, and the fourth failure
reaches `error` with nothing scheduled. -/
theorem c4_backoff_and_exhaustion_witness :
    (1 ≤ 2 ∧ 2 ≤ defaultOptions.maxRetries) ∧
    ((afterFailures defaultOptions 2 (freshConnection "j4" 0)).status
        = ConnectionStatus.reconnecting ∧
     (afterFailures defaultOptions 2 (freshConnection "j4" 0)).retryCount = 2 ∧
     (afterFailures defaultOptions 2 (freshConnection "j4" 0)).reconnectDelay
        = some (min (defaultOptions.retryInterval * 2 ^ (2 - 1)) 30000)) ∧
    ((afterFailures defaultOptions (defaultOptions.maxRetries + 1)
          (freshConnection "j4" 0)).status = ConnectionStatus.error ∧
     (afterFailures defaultOptions (defaultOptions.maxRetries + 1)
          (freshConnection "j4" 0)).reconnectDelay = none) :=
  ⟨⟨by decide, by decide⟩,
   (c4_backoff_and_exhaustion defaultOptions "j4" 0).1 2 (by decide) (by decide),
   (c4_backoff_and_exhaustion defaultOptions "j4" 0).2⟩

/-- C4 counterexample: with the defaults (`maxRetries = 3`), after exactly 3
consecutive transport failures with no successful open the status is still
`reconnecting` — not `error` — and a further automatic reconnect attempt is
scheduled (after 4000 ms), refuting the claim that `error` is reached after
exactly `maxRetries` failures. -/
theorem c4_counterexample :
    (afterFailures defaultOptions defaultOptions.maxRetries
        (freshConnection "j4c" 0)).status = ConnectionStatus.reconnecting ∧
    (afterFailures defaultOptions defaultOptions.maxRetries
        (freshConnection "j4c" 0)).status ≠ ConnectionStatus.error ∧
    (afterFailures defaultOptions defaultOptions.maxRetries
        (freshConnection "j4c" 0)).reconnectDelay = some 4000 := by
  decide

/-! ### Claim C9 -/

/-- C9: `connect` is idempotent on a connected channel — when the stored
connection for `id` has status `connected`, two successive `connect(id)`
calls both return `true`, perform no transport open, and leave the connection
table (bookkeeping included) unchanged. -/
theorem c9_connect_idempotent (now1 now2 : Int)
    (conns : List (String × ManagedConnection)) (id : String)
    (hc : (mapGet conns id).map ManagedConnection.status
        = some ConnectionStatus.connected) :
    (connectSSE now1 conns id).returned = true ∧
    (connectSSE now1 conns id).transportOpens = 0 ∧
    (connectSSE now1 conns id).connections = conns ∧
    (connectSSE now2 (connectSSE now1 conns id).connections id).returned = true ∧
    (connectSSE now2 (connectSSE now1 conns id).connections id).transportOpens = 0 ∧
    (connectSSE now2 (connectSSE now1 conns id).connections id).connections = conns := by
  rcases hg : mapGet conns id with _ | c
  · rw [hg] at hc; exact absurd hc (by simp)
  · rw [hg] at hc
    have hstat : c.status = ConnectionStatus.connected := by simpa using hc
    have h1 : connectSSE now1 conns id
        = { returned := true, connections := conns, transportOpens := 0 } := by
      simp [connectSSE, hg, hstat]
    have h2 : connectSSE now2 conns id
        = { returned := true, connections := conns, transportOpens := 0 } := by
      simp [connectSSE, hg, hstat]
    refine ⟨?_, ?_, ?_, ?_, ?_, ?_⟩ <;> simp [h1, h2]

/-- C9 witness: the idempotence theorem instantiated on a concrete connected
channel. -/
theorem c9_connect_idempotent_witness :
    (mapGet c9Conns "j9").map ManagedConnection.status
        = some ConnectionStatus.connected ∧
    ((connectSSE 10 c9Conns "j9").returned = true ∧
     (connectSSE 10 c9Conns "j9").transportOpens = 0 ∧
     (connectSSE 10 c9Conns "j9").connections = c9Conns ∧
     (connectSSE 20 (connectSSE 10 c9Conns "j9").connections "j9").returned = true ∧
     (connectSSE 20 (connectSSE 10 c9Conns "j9").connections "j9").transportOpens = 0 ∧
     (connectSSE 20 (connectSSE 10 c9Conns "j9").connections "j9").connections
        = c9Conns) :=
  ⟨by decide, c9_connect_idempotent 10 20 c9Conns "j9" (by decide)⟩

/-! ### Claim C8 -/

/-- C8: for a job whose previous snapshot status is not `SUCCESS`, a state
update that shows it as `SUCCESS` makes the completion-monitor effect invoke
the registered completion callback exactly once and schedule disconnection of
the job's channel with a 2000 ms delay (so no sooner than 2 seconds after the
transition); a transition from `RUNNING` into `FAILED` or `CANCELLED` instead
produces exactly an immediate disconnect and never invokes the completion
callback. -/
theorem c8_completion_monitor (prev job : ScanJob) :
    (job.status = JobStatus.SUCCESS → prev.status ≠ JobStatus.SUCCESS →
      (completionActionsFor true (some prev) job
          = [MonitorAction.invokeOnScanComplete job,
             MonitorAction.scheduleDisconnect job.requestId 2000] ∧
       (completionActionsFor true (some prev) job).countP isInvoke = 1)) ∧
    ((job.status = JobStatus.FAILED ∨ job.status = JobStatus.CANCELLED) →
      prev.status = JobStatus.RUNNING →
      (completionActionsFor true (some prev) job
          = [MonitorAction.disconnectNow job.requestId] ∧
       (completionActionsFor true (some prev) job).countP isInvoke = 0)) := by
  constructor
  · intro hjob hprev
    have hcond : job.status = JobStatus.SUCCESS ∧ prev.status ≠ JobStatus.SUCCESS :=
      ⟨hjob, hprev⟩
    simp [completionActionsFor, hcond, isInvoke, List.countP_cons]
  · intro hjob hprev
    have hns : job.status ≠ JobStatus.SUCCESS := by
      rcases hjob with h | h <;> simp [h]
    have hcond : (job.status = JobStatus.FAILED ∨ job.status = JobStatus.CANCELLED)
        ∧ prev.status = JobStatus.RUNNING := ⟨hjob, hprev⟩
    simp [completionActionsFor, hns, hcond, isInvoke, List.countP_cons]

/-- C8 witness: the monitor theorem applied to a concrete `RUNNING → SUCCESS`
transition and a concrete `RUNNING → FAILED` transition. -/
theorem c8_completion_monitor_witness :
    (completionActionsFor true (some c8Prev) c8Success
        = [MonitorAction.invokeOnScanComplete c8Success,
           MonitorAction.scheduleDisconnect "j8" 2000] ∧
     (completionActionsFor true (some c8Prev) c8Success).countP isInvoke = 1) ∧
    (completionActionsFor true (some c8Prev) c8Failed
        = [MonitorAction.disconnectNow "j8"] ∧
     (completionActionsFor true (some c8Prev) c8Failed).countP isInvoke = 0) :=
  ⟨(c8_completion_monitor c8Prev c8Success).1 (by decide) (by decide),
   (c8_completion_monitor c8Prev c8Failed).2 (by decide) (by decide)⟩

/-! ### Target-loop lemmas -/

/-- Each iteration adds at most one to `failedCount`. -/
theorem runTargets_failed_le (envs : List TargetEnv) : ∀ st : ExecState,
    ((runTargets st envs).1).failed ≤ st.failed + envs.length := by
  induction envs with
  | nil => intro st; simp [runTargets]
  | cons env rest ih =>
    intro st
    rcases env with ⟨outcome, catchT⟩
    cases outcome <;> cases catchT <;>
      simp only [runTargets, runTarget, List.length_cons] <;>
      first
        | (refine le_trans (ih _) ?_
           try simp only []
           omega)
        | omega

/-- When no iteration throws at the progress-persist statement, each
iteration adds at most one to the two counters combined. -/
theorem runTargets_sum_le (envs : List TargetEnv) : ∀ st : ExecState,
    (∀ e ∈ envs, e.tryOutcome ≠ TryOutcome.throwAtProgressUpdate) →
    ((runTargets st envs).1).scanned + ((runTargets st envs).1).failed
      ≤ st.scanned + st.failed + envs.length := by
  induction envs with
  | nil => intro st _; simp [runTargets]
  | cons env rest ih =>
    intro st hnp
    have hhead : env.tryOutcome ≠ TryOutcome.throwAtProgressUpdate :=
      hnp env (List.mem_cons_self env rest)
    have htail : ∀ e ∈ rest, e.tryOutcome ≠ TryOutcome.throwAtProgressUpdate :=
      fun e he => hnp e (List.mem_cons_of_mem env he)
    rcases env with ⟨outcome, catchT⟩
    cases outcome <;> cases catchT <;>
      first
        | (exact absurd rfl hhead)
        | (simp only [runTargets, runTarget, List.length_cons]
           first
             | (refine le_trans (ih _ htail) ?_
                try simp only []
                omega)
             | omega)

/-- When no `catch`-side history update throws, the loop processes every
target: it returns without a propagated exception, `scannedCount` counts the
iterations that reached the success increment, and `failedCount` counts the
iterations whose `try` threw. -/
theorem runTargets_complete (envs : List TargetEnv) : ∀ st : ExecState,
    (∀ e ∈ envs, e.catchUpdateThrows = false) →
    ((runTargets st envs).2 = none ∧
     ((runTargets st envs).1).scanned = st.scanned + envs.countP incrementsScanned ∧
     ((runTargets st envs).1).failed = st.failed + envs.countP incrementsFailed) := by
  induction envs with
  | nil => intro st _; simp [runTargets]
  | cons env rest ih =>
    intro st hc
    have hhead : env.catchUpdateThrows = false := hc env (List.mem_cons_self env rest)
    have htail : ∀ e ∈ rest, e.catchUpdateThrows = false :=
      fun e he => hc e (List.mem_cons_of_mem env he)
    rcases env with ⟨outcome, catchT⟩
    cases catchT
    · cases outcome <;>
        · simp only [runTargets, runTarget, incrementsScanned, incrementsFailed,
            List.countP_cons]
          obtain ⟨h1, h2, h3⟩ := ih _ htail
          refine ⟨by simpa using h1, ?_, ?_⟩ <;>
            · simp only [incrementsScanned, incrementsFailed] at h2 h3 ⊢
              simp at h2 h3 ⊢
              omega
    · exact absurd hhead (by simp)

/-- The final-status expression, characterized as the spec's pure function of
the counters (for a nonempty batch with `failedCount ≤ totalTargets`). -/
theorem computeFinalStatus_iff (f total : Nat) (hle : f ≤ total) (hpos : 1 ≤ total) :
    (computeFinalStatus f total = BatchStatus.FAILED ↔ f = total) ∧
    (computeFinalStatus f total = BatchStatus.PARTIAL ↔ (0 < f ∧ f < total)) ∧
    (computeFinalStatus f total = BatchStatus.COMPLETED ↔ f = 0) := by
  unfold computeFinalStatus
  split_ifs with h1 h2 <;> refine ⟨?_, ?_, ?_⟩ <;> simp <;> omega

/-! ### Claim C2 -/

/-- C2: for every batch execution that finishes its target loop (the loop
returns without a propagated exception), the final batch status is the pure
function of the final counters: `FAILED` iff `failedCount = totalTargets`,
`PARTIAL` iff `0 < failedCount < totalTargets`, `COMPLETED` iff
`failedCount = 0`. -/
theorem c2_final_status_pure (now : Int) (envs : List TargetEnv) (hne : envs ≠ [])
    (hok : (runTargets (initExecState (initialHistory envs.length)) envs).2 = none) :
    ((finalHistory now envs).status = BatchStatus.FAILED ↔
        (finalHistory now envs).failedImages = envs.length) ∧
    ((finalHistory now envs).status = BatchStatus.PARTIAL ↔
        (0 < (finalHistory now envs).failedImages ∧
         (finalHistory now envs).failedImages < envs.length)) ∧
    ((finalHistory now envs).status = BatchStatus.COMPLETED ↔
        (finalHistory now envs).failedImages = 0) := by
  have hsplit : runTargets (initExecState (initialHistory envs.length)) envs
      = ((runTargets (initExecState (initialHistory envs.length)) envs).1, none) := by
    rw [← hok]
  have hfinal : finalHistory now envs
      = { ((runTargets (initExecState (initialHistory envs.length)) envs).1).history with
            status := computeFinalStatus
              ((runTargets (initExecState (initialHistory envs.length)) envs).1).failed
              envs.length
            completedAt := some now
            scannedImages :=
              ((runTargets (initExecState (initialHistory envs.length)) envs).1).scanned
            failedImages :=
              ((runTargets (initExecState (initialHistory envs.length)) envs).1).failed } := by
    simp only [finalHistory, startScanExecution, Bool.false_eq_true, if_false]
    rw [hsplit]
  have hlen : 1 ≤ envs.length := List.length_pos.mpr hne
  have hfle : ((runTargets (initExecState (initialHistory envs.length)) envs).1).failed
      ≤ envs.length := by
    have h := runTargets_failed_le envs (initExecState (initialHistory envs.length))
    simpa [initExecState, initialHistory] using h
  rw [hfinal]
  exact computeFinalStatus_iff _ _ hfle hlen

/-- C2 witness: the spec scenario — a batch of 5 targets with 3 successes and
2 failures ends `PARTIAL` with `scannedImages = 3` and `failedImages = 2`. -/
theorem c2_final_status_pure_witness :
    (c2Envs ≠ [] ∧
     (runTargets (initExecState (initialHistory c2Envs.length)) c2Envs).2 = none) ∧
    (((finalHistory 1000 c2Envs).status = BatchStatus.FAILED ↔
        (finalHistory 1000 c2Envs).failedImages = c2Envs.length) ∧
     ((finalHistory 1000 c2Envs).status = BatchStatus.PARTIAL ↔
        (0 < (finalHistory 1000 c2Envs).failedImages ∧
         (finalHistory 1000 c2Envs).failedImages < c2Envs.length)) ∧
     ((finalHistory 1000 c2Envs).status = BatchStatus.COMPLETED ↔
        (finalHistory 1000 c2Envs).failedImages = 0)) ∧
    (finalHistory 1000 c2Envs).status = BatchStatus.PARTIAL ∧
    (finalHistory 1000 c2Envs).scannedImages = 3 ∧
    (finalHistory 1000 c2Envs).failedImages = 2 :=
  ⟨⟨by decide, by decide⟩,
   c2_final_status_pure 1000 c2Envs (by decide) (by decide),
   by decide, by decide, by decide⟩

/-! ### Claim C3 -/

/-- C3 (amended): at every point of the target loop the counters satisfy
`scannedCount ≥ 0`, `failedCount ≥ 0` and
`scannedCount + failedCount ≤ totalTargets`, provided no iteration throws at
the per-batch progress-persist statement — the one statement the `try` runs
after `scannedCount++`, whose failure makes the same target increment both
counters. -/
theorem c3_counters_invariant (envs : List TargetEnv) (k : Nat)
    (hnp : ∀ e ∈ envs, e.tryOutcome ≠ TryOutcome.throwAtProgressUpdate) :
    0 ≤ ((runTargets (initExecState (initialHistory envs.length)) (envs.take k)).1).scanned ∧
    0 ≤ ((runTargets (initExecState (initialHistory envs.length)) (envs.take k)).1).failed ∧
    ((runTargets (initExecState (initialHistory envs.length)) (envs.take k)).1).scanned
      + ((runTargets (initExecState (initialHistory envs.length)) (envs.take k)).1).failed
      ≤ envs.length := by
  refine ⟨Nat.zero_le _, Nat.zero_le _, ?_⟩
  have hsub : ∀ e ∈ envs.take k, e.tryOutcome ≠ TryOutcome.throwAtProgressUpdate :=
    fun e he => hnp e (List.mem_of_mem_take he)
  have h := runTargets_sum_le (envs.take k) (initExecState (initialHistory envs.length)) hsub
  have hlen : (envs.take k).length ≤ envs.length := by
    rw [List.length_take]
    exact min_le_right _ _
  have h0s : (initExecState (initialHistory envs.length)).scanned = 0 := rfl
  have h0f : (initExecState (initialHistory envs.length)).failed = 0 := rfl
  rw [h0s, h0f] at h
  omega

/-- C3 counterexample: a batch of one target whose per-batch progress persist
throws ends the loop with `scannedCount = 1` and `failedCount = 1` — the one
target incremented both counters and `scannedCount + failedCount`
exceeds `totalTargets = 1`. -/
theorem c3_counterexample :
    (((runTargets (initExecState (initialHistory 1)) [c3Env]).1).scanned = 1 ∧
     ((runTargets (initExecState (initialHistory 1)) [c3Env]).1).failed = 1) ∧
    ¬ (((runTargets (initExecState (initialHistory 1)) [c3Env]).1).scanned
        + ((runTargets (initExecState (initialHistory 1)) [c3Env]).1).failed
        ≤ ([c3Env] : List TargetEnv).length) := by
  decide

/-- C3 witness: the amended invariant instantiated on a concrete two-target
batch after both iterations. -/
theorem c3_counters_invariant_witness :
    (∀ e ∈ c3WitnessEnvs, e.tryOutcome ≠ TryOutcome.throwAtProgressUpdate) ∧
    (0 ≤ ((runTargets (initExecState (initialHistory c3WitnessEnvs.length))
            (c3WitnessEnvs.take 2)).1).scanned ∧
     0 ≤ ((runTargets (initExecState (initialHistory c3WitnessEnvs.length))
            (c3WitnessEnvs.take 2)).1).failed ∧
     ((runTargets (initExecState (initialHistory c3WitnessEnvs.length))
            (c3WitnessEnvs.take 2)).1).scanned
       + ((runTargets (initExecState (initialHistory c3WitnessEnvs.length))
            (c3WitnessEnvs.take 2)).1).failed
       ≤ c3WitnessEnvs.length) :=
  ⟨by decide, c3_counters_invariant c3WitnessEnvs 2 (by decide)⟩

/-! ### Claim C6 -/

/-- C6: the batch trigger rejects synchronously and persists no batch record
when the batch is disabled (400), when the selection mode is the
unimplemented `REPOSITORY` mode (501, "not yet implemented"), and when the
resolved target set is empty — including `PATTERN` mode with zero matches
(400); in none of these cases is a history record created. -/
theorem c6_trigger_rejections (rt : String → String → Bool) (s : ScheduledScan)
    (allImages : List ImageRec) :
    (s.enabled = false →
      ((executePost rt (some s) allImages).1.httpStatus = 400 ∧
       (executePost rt (some s) allImages).1.errorBody
          = some "Scheduled scan is disabled" ∧
       (executePost rt (some s) allImages).2 = none)) ∧
    (s.enabled = true → s.imageSelectionMode = SelectionMode.REPOSITORY →
      ((executePost rt (some s) allImages).1.httpStatus = 501 ∧
       (executePost rt (some s) allImages).1.errorBody
          = some "Repository-based selection not yet implemented" ∧
       (executePost rt (some s) allImages).2 = none)) ∧
    (s.enabled = true → s.imageSelectionMode ≠ SelectionMode.REPOSITORY →
      resolveImages rt s allImages = [] →
      ((executePost rt (some s) allImages).1.httpStatus = 400 ∧
       (executePost rt (some s) allImages).1.errorBody
          = some "No images found to scan" ∧
       (executePost rt (some s) allImages).2 = none)) := by
  refine ⟨?_, ?_, ?_⟩
  · intro h
    simp [executePost, h]
  · intro he hm
    simp [executePost, he, hm]
  · intro he hm hres
    simp [executePost, he, hm, hres]

/-- C6 witness: the three rejection branches instantiated — a disabled batch,
the `REPOSITORY` mode, and `PATTERN` mode with zero matches; each returns its
error status and persists nothing. -/
theorem c6_trigger_rejections_witness :
    ((executePost noMatch (some c6Disabled) c6Images).1.httpStatus = 400 ∧
     (executePost noMatch (some c6Disabled) c6Images).1.errorBody
        = some "Scheduled scan is disabled" ∧
     (executePost noMatch (some c6Disabled) c6Images).2 = none) ∧
    ((executePost noMatch (some c6Repo) c6Images).1.httpStatus = 501 ∧
     (executePost noMatch (some c6Repo) c6Images).1.errorBody
        = some "Repository-based selection not yet implemented" ∧
     (executePost noMatch (some c6Repo) c6Images).2 = none) ∧
    ((executePost noMatch (some c6Pat) c6Images).1.httpStatus = 400 ∧
     (executePost noMatch (some c6Pat) c6Images).1.errorBody
        = some "No images found to scan" ∧
     (executePost noMatch (some c6Pat) c6Images).2 = none) :=
  ⟨(c6_trigger_rejections noMatch c6Disabled c6Images).1 (by decide),
   (c6_trigger_rejections noMatch c6Repo c6Images).2.1 (by decide) (by decide),
   (c6_trigger_rejections noMatch c6Pat c6Images).2.2 (by decide) (by decide)
     (by decide)⟩

/-! ### Claim C7 -/

/-- C7: if the background task rejects with a pipeline-level exception, the
`.catch` handler forces the batch record to `FAILED` with the captured
message and a completion timestamp; the handled batch is never left
`RUNNING`; and as long as no `catch`-side bookkeeping update throws, a single
target's failure is counted in `failedCount` but the loop still processes
every remaining target. -/
theorem c7_fault_handling :
    (∀ (now : Int) (hist : HistoryRecord) (env : BatchEnv) (msg : String),
      (startScanExecution now hist env).2 = some msg →
        ((runBatch now hist env).status = BatchStatus.FAILED ∧
         (runBatch now hist env).errorMessage = some msg ∧
         (runBatch now hist env).completedAt = some now)) ∧
    (∀ (now : Int) (hist : HistoryRecord) (env : BatchEnv),
      (runBatch now hist env).status ≠ BatchStatus.RUNNING) ∧
    (∀ (envs : List TargetEnv) (st : ExecState),
      (∀ e ∈ envs, e.catchUpdateThrows = false) →
        ((runTargets st envs).2 = none ∧
         ((runTargets st envs).1).scanned = st.scanned + envs.countP incrementsScanned ∧
         ((runTargets st envs).1).failed = st.failed + envs.countP incrementsFailed)) := by
  refine ⟨?_, ?_, ?_⟩
  · intro now hist env msg h
    rcases hr : startScanExecution now hist env with ⟨h1, err⟩
    rw [hr] at h
    simp only at h
    subst h
    simp [runBatch, hr, onExecutionError]
  · intro now hist env
    rcases env with ⟨initT, targets, finalT⟩
    cases initT
    · rcases hr : runTargets (initExecState hist) targets with ⟨st, err⟩
      cases err with
      | none =>
        cases finalT
        · simp only [runBatch, startScanExecution, Bool.false_eq_true, if_false]
          rw [hr]
          simp only
          unfold computeFinalStatus
          split_ifs <;> simp
        · simp only [runBatch, startScanExecution, Bool.false_eq_true, if_false]
          rw [hr]
          simp [onExecutionError]
      | some msg =>
        simp only [runBatch, startScanExecution, Bool.false_eq_true, if_false]
        rw [hr]
        simp [onExecutionError]
    · simp [runBatch, startScanExecution, onExecutionError]
  · intro envs st h
    exact runTargets_complete envs st h

/-- C7 witness: a concrete pipeline-level fault forces `FAILED` with the
captured message and timestamp, and a concrete two-target loop with one
failing target still processes both targets. -/
theorem c7_fault_handling_witness :
    ((startScanExecution 5 (initialHistory 0) c7Env).2
        = some "status RUNNING update threw" ∧
     ((runBatch 5 (initialHistory 0) c7Env).status = BatchStatus.FAILED ∧
      (runBatch 5 (initialHistory 0) c7Env).errorMessage
        = some "status RUNNING update threw" ∧
      (runBatch 5 (initialHistory 0) c7Env).completedAt = some 5)) ∧
    ((∀ e ∈ c7Envs, e.catchUpdateThrows = false) ∧
     ((runTargets c7St c7Envs).2 = none ∧
      ((runTargets c7St c7Envs).1).scanned
        = c7St.scanned + c7Envs.countP incrementsScanned ∧
      ((runTargets c7St c7Envs).1).failed
        = c7St.failed + c7Envs.countP incrementsFailed)) :=
  ⟨⟨by decide,
    c7_fault_handling.1 5 (initialHistory 0) c7Env "status RUNNING update threw"
      (by decide)⟩,
   ⟨by decide, c7_fault_handling.2.2 c7Envs c7St (by decide)⟩⟩

end HarborGuard
